import Mathlib

/-!
Shallow embedding of the `cloudflareddns` DDNS updater (src/main.rs,
src/data.rs, src/error.rs) and verification of its specification claims.

Addresses (`Ipv4Addr`, `Ipv6Addr`) are modelled by their `to_string`
rendering, a `String`: the record worker only ever renders an address and
compares/stores the resulting string.  Remote-call effects are modelled by
passing the outcome of each call as an explicit argument (an oracle):
`Except ReqwestError Response` mirrors `Result<Response, reqwest::Error>`.
-/

namespace CloudflareDdns

/-- `CloudFlareError` from src/error.rs: a provider-reported error item. -/
structure CloudFlareError where
  code : Nat
  message : String
deriving DecidableEq, Repr

/-- `Response` from src/data.rs: application-level result of an update. -/
structure Response where
  success : Bool
  errors : List CloudFlareError
deriving DecidableEq, Repr

/-- `ExtendedResponse<T>` from src/data.rs: a `Response` plus a payload. -/
structure ExtendedResponse (T : Type) where
  response : Response
  result : T
deriving DecidableEq, Repr

/-- `DnsRecord` from src/data.rs: one record as listed by the provider. -/
structure DnsRecord where
  content : String
  id : String
  name : String
  record_type : String
deriving DecidableEq, Repr

/-- `Entry` from src/data.rs: one configured record entry. -/
structure Entry where
  name : String
  ttl : Nat
  proxied : Option Bool
  record_type : String
  tags : Option (List String)
  comment : Option String
deriving DecidableEq, Repr

/-- `DnsUpdate` from src/data.rs: the payload of one update push. -/
structure DnsUpdate where
  entry : Entry
  content : String
deriving DecidableEq, Repr

/-- `DomainInfo` from src/data.rs: one configured zone. -/
structure DomainInfo where
  zone_id : String
  api_key : String
  entries : List Entry
deriving DecidableEq, Repr

/-- Transport-level failure (`reqwest::Error`), abstracted to a message. -/
structure ReqwestError where
  message : String
deriving DecidableEq, Repr

/-- One address snapshot `(Option<Ipv4Addr>, Option<Ipv6Addr>)`
(src/main.rs line 75), each component rendered to its string form. -/
structure Snapshot where
  v4 : Option String
  v6 : Option String
deriving DecidableEq, Repr

/-- Mutable state of one record worker (src/main.rs lines 93-94):
`to_change` is the retry flag, `update` holds the entry together with the
last sent content (`update.content`). -/
structure WorkerState where
  to_change : Bool
  update : DnsUpdate
deriving DecidableEq, Repr

/-- Record-kind dispatch of the worker (src/main.rs lines 84-91):
`AAAA` selects IPv6 (`some true`), `A` selects IPv4 (`some false`), any
other kind makes the worker exit before consuming snapshots (`none`). -/
def recordFamily (record_type : String) : Option Bool :=
  if record_type = "AAAA" then some true
  else if record_type = "A" then some false
  else none

/-- Address selection of src/main.rs lines 116-134: the component of the
snapshot relevant to the worker's family (`v.1` when ipv6, else `v.0`). -/
def familyAddr (ipv6 : Bool) (v : Snapshot) : Option String :=
  if ipv6 then v.v6 else v.v4

/-- One iteration of the record worker loop body (src/main.rs lines
96-157) on a delivered snapshot `v`.  `resp` is the outcome the provider
would return for a `do_update` call issued in this iteration; it is only
consulted when a call is actually made.  Returns the new state and the
list of update payloads pushed this iteration (empty or a singleton). -/
def workerStep (ipv6 : Bool) (st : WorkerState) (v : Snapshot)
    (resp : Except ReqwestError Response) : WorkerState × List DnsUpdate :=
  if st.to_change then
    -- lines 97-114: retry path, runs before any address extraction
    match resp with
    | .ok _ => ({ st with to_change := false }, [st.update])
    | .error _ => (st, [st.update])
  else
    match familyAddr ipv6 v with
    | none => (st, [])                   -- lines 121-123 / 130-132: continue
    | some addr =>
      if addr ≠ st.update.content then   -- lines 136-155
        let upd : DnsUpdate := { st.update with content := addr }
        match resp with
        | .ok _ => ({ to_change := false, update := upd }, [upd])
        | .error _ => ({ to_change := true, update := upd }, [upd])
      else (st, [])                      -- line 136 false: fall to loop end

/-- Initial worker state (src/main.rs lines 93-94): not retrying, content
is the empty string. -/
def initState (entry : Entry) : WorkerState :=
  { to_change := false, update := { entry := entry, content := "" } }

/-- Run the worker loop over a list of delivered snapshots, each paired
with the provider outcome its (possible) `do_update` call would receive.
Returns the final state and the chronological list of pushed payloads,
each paired with the outcome it received. -/
def runWorker (ipv6 : Bool) (st : WorkerState) :
    List (Snapshot × Except ReqwestError Response) →
      WorkerState × List (DnsUpdate × Except ReqwestError Response)
  | [] => (st, [])
  | (v, resp) :: rest =>
    let s := workerStep ipv6 st v resp
    let r := runWorker ipv6 s.1 rest
    (r.1, s.2.map (fun u => (u, resp)) ++ r.2)

/-- A sample configured entry used by concrete witnesses. -/
def entryA : Entry :=
  { name := "home.example.com", ttl := 1, proxied := none,
    record_type := "A", tags := none, comment := none }

/-- A nonempty list has a last element. -/
theorem getLast?_cons_exists {α : Type} (a : α) (l : List α) :
    ∃ p, (a :: l).getLast? = some p := by
  induction l generalizing a with
  | nil => exact ⟨a, rfl⟩
  | cons b t ih => simpa using ih b

/-- Whether a provider-call outcome is a transport-level failure. -/
def respIsErr : Except ReqwestError Response → Bool
  | .ok _ => false
  | .error _ => true

/-- Case analysis of one worker iteration: either no push happens and the
state is untouched, or exactly one push happens, the resulting retry flag
records whether that push failed at transport level, and the stored update
is exactly the pushed payload. -/
theorem workerStep_push_cases (ipv6 : Bool) (st : WorkerState)
    (v : Snapshot) (resp : Except ReqwestError Response) :
    ((workerStep ipv6 st v resp).2 = [] ∧ (workerStep ipv6 st v resp).1 = st) ∨
    (∃ u, (workerStep ipv6 st v resp).2 = [u] ∧
      (workerStep ipv6 st v resp).1.to_change = respIsErr resp ∧
      (workerStep ipv6 st v resp).1.update = u) := by
  by_cases hc : st.to_change
  · right
    refine ⟨st.update, ?_⟩
    cases resp <;> simp [workerStep, hc, respIsErr]
  · rcases habs : familyAddr ipv6 v with _ | addr
    · left; simp [workerStep, hc, habs]
    · by_cases hne : addr = st.update.content
      · left; simp [workerStep, hc, habs, hne]
      · right
        refine ⟨{ st.update with content := addr }, ?_⟩
        cases resp <;> simp [workerStep, hc, habs, hne, respIsErr]

/-- After any run of the worker: if no push was made the state is exactly
the initial one; otherwise the final retry flag records whether the most
recent push failed at transport level and the final stored update is that
push's payload. -/
theorem runWorker_last_push (ipv6 : Bool) :
    ∀ (L : List (Snapshot × Except ReqwestError Response)) (st : WorkerState),
      ((runWorker ipv6 st L).2 = [] → (runWorker ipv6 st L).1 = st) ∧
      (∀ u r, ((runWorker ipv6 st L).2).getLast? = some (u, r) →
        (runWorker ipv6 st L).1.to_change = respIsErr r ∧
        (runWorker ipv6 st L).1.update = u) := by
  intro L
  induction L with
  | nil =>
    intro st
    exact ⟨fun _ => rfl, fun u r h => by simp [runWorker] at h⟩
  | cons p rest ih =>
    intro st
    obtain ⟨v, resp⟩ := p
    have hrun : runWorker ipv6 st ((v, resp) :: rest) =
        ((runWorker ipv6 (workerStep ipv6 st v resp).1 rest).1,
         (workerStep ipv6 st v resp).2.map (fun u => (u, resp)) ++
           (runWorker ipv6 (workerStep ipv6 st v resp).1 rest).2) := rfl
    rcases workerStep_push_cases ipv6 st v resp with ⟨hnil, hst⟩ | ⟨u0, hone, hflag, hupd⟩
    · rw [hrun, hnil, hst]
      simpa using ih st
    · rw [hrun, hone]
      constructor
      · intro h; simp at h
      · intro u r h
        rcases hrest : (runWorker ipv6 (workerStep ipv6 st v resp).1 rest).2 with _ | ⟨q, qs⟩
        · rw [hrest] at h
          simp at h
          obtain ⟨hu, hr⟩ := h
          have hfin := ((ih (workerStep ipv6 st v resp).1).1) hrest
          rw [hfin]
          exact ⟨hr ▸ hflag, hu ▸ hupd⟩
        · rw [hrest] at h
          have hlast : ((u0, resp) :: q :: qs).getLast? = (q :: qs).getLast? := by
            simp
          rw [List.map_cons, List.map_nil, List.singleton_append, hlast] at h
          have := ((ih (workerStep ipv6 st v resp).1).2) u r (by rw [hrest]; exact h)
          exact this

/-- C3: (a) `lastSentContent` changes in a step only when the worker is
Idle and the snapshot carries an address of its family differing from the
current content, which becomes the new content; (b) over any run from the
initial state, `pendingRetry` is true iff a push has been attempted and
the most recent one was not confirmed successful at transport level
(§7 makes confirmation transport-level: an application-level failure never
sets the flag), and the most recent push carried the current
`lastSentContent`. -/
theorem c3_state_invariants (ipv6 : Bool) :
    (∀ (st : WorkerState) (v : Snapshot) (resp : Except ReqwestError Response),
      (workerStep ipv6 st v resp).1.update.content ≠ st.update.content →
        st.to_change = false ∧
        ∃ a, familyAddr ipv6 v = some a ∧ a ≠ st.update.content ∧
          (workerStep ipv6 st v resp).1.update.content = a) ∧
    (∀ (L : List (Snapshot × Except ReqwestError Response)) (entry : Entry),
      ((runWorker ipv6 (initState entry) L).1.to_change = true ↔
        ∃ u r, ((runWorker ipv6 (initState entry) L).2).getLast? = some (u, r) ∧
          respIsErr r = true) ∧
      (∀ u r, ((runWorker ipv6 (initState entry) L).2).getLast? = some (u, r) →
        u.content = (runWorker ipv6 (initState entry) L).1.update.content)) := by
  constructor
  · intro st v resp hch
    by_cases hc : st.to_change
    · exfalso
      apply hch
      cases resp <;> simp [workerStep, hc]
    · rcases habs : familyAddr ipv6 v with _ | addr
      · exfalso; apply hch; simp [workerStep, hc, habs]
      · by_cases hne : addr = st.update.content
        · exfalso; apply hch; simp [workerStep, hc, habs, hne]
        · refine ⟨by simp [hc], addr, rfl, hne, ?_⟩
          cases resp <;> simp [workerStep, hc, habs, hne]
  · intro L entry
    have hmain := runWorker_last_push ipv6 L (initState entry)
    rcases hcalls : (runWorker ipv6 (initState entry) L).2 with _ | ⟨q, qs⟩
    · have hfin := hmain.1 hcalls
      constructor
      · rw [hfin]
        simp [initState]
      · intro u r h
        simp at h
    · rw [hcalls] at hmain
      obtain ⟨⟨ul, rl⟩, hlast⟩ := getLast?_cons_exists q qs
      have hprops := hmain.2 ul rl hlast
      constructor
      · constructor
        · intro ht
          exact ⟨ul, rl, hlast, by rw [← hprops.1, ht]⟩
        · rintro ⟨u, r, h, herr⟩
          have := hmain.2 u r h
          rw [this.1, herr]
      · intro u r h
        have := hmain.2 u r h
        rw [this.2]

/-- Witness for C3 at a concrete input: from the initial state a snapshot
carrying a fresh address changes the content, and the theorem pins down
how. -/
theorem c3_state_invariants_witness :
    (initState entryA).to_change = false ∧
    ∃ a, familyAddr false { v4 := some "1.2.3.4", v6 := none } = some a ∧
      a ≠ (initState entryA).update.content ∧
      (workerStep false (initState entryA) { v4 := some "1.2.3.4", v6 := none }
        (.ok { success := true, errors := [] })).1.update.content = a :=
  (c3_state_invariants false).1 (initState entryA)
    { v4 := some "1.2.3.4", v6 := none }
    (.ok { success := true, errors := [] }) (by decide)

/-- C6: in Idle, a snapshot whose relevant address differs from
`lastSentContent` issues exactly one provider update call whose content is
the new address, and `lastSentContent` is set to that new address. -/
theorem c6_idle_changed_pushes_new (ipv6 : Bool) (st : WorkerState)
    (v : Snapshot) (addr : String) (resp : Except ReqwestError Response)
    (hidle : st.to_change = false) (haddr : familyAddr ipv6 v = some addr)
    (hne : addr ≠ st.update.content) :
    (workerStep ipv6 st v resp).2 = [{ st.update with content := addr }] ∧
    (workerStep ipv6 st v resp).1.update.content = addr := by
  cases resp <;> simp [workerStep, hidle, haddr, hne]

/-- Witness for C6 at a concrete input. -/
theorem c6_idle_changed_pushes_new_witness :
    (workerStep false (initState entryA)
        { v4 := some "203.0.113.9", v6 := none }
        (.ok { success := true, errors := [] })).2 =
      [{ entry := entryA, content := "203.0.113.9" }] ∧
    (workerStep false (initState entryA)
        { v4 := some "203.0.113.9", v6 := none }
        (.ok { success := true, errors := [] })).1.update.content =
      "203.0.113.9" :=
  c6_idle_changed_pushes_new false (initState entryA)
    { v4 := some "203.0.113.9", v6 := none } "203.0.113.9"
    (.ok { success := true, errors := [] }) rfl rfl (by decide)

/-- C7: in Idle, a snapshot whose relevant address equals the current
`lastSentContent` issues no provider call and changes nothing. -/
theorem c7_idle_unchanged_noop (ipv6 : Bool) (st : WorkerState)
    (v : Snapshot) (addr : String) (resp : Except ReqwestError Response)
    (hidle : st.to_change = false) (haddr : familyAddr ipv6 v = some addr)
    (heq : addr = st.update.content) :
    workerStep ipv6 st v resp = (st, []) := by
  simp [workerStep, hidle, haddr, heq]

/-- Witness for C7 at a concrete input. -/
theorem c7_idle_unchanged_noop_witness :
    workerStep false
        { to_change := false, update := { entry := entryA, content := "1.2.3.4" } }
        { v4 := some "1.2.3.4", v6 := none }
        (.ok { success := true, errors := [] }) =
      ({ to_change := false, update := { entry := entryA, content := "1.2.3.4" } }, []) :=
  c7_idle_unchanged_noop false
    { to_change := false, update := { entry := entryA, content := "1.2.3.4" } }
    { v4 := some "1.2.3.4", v6 := none } "1.2.3.4"
    (.ok { success := true, errors := [] }) rfl rfl rfl

/-- C5: in Retrying, any transport-level completion (whatever the
application success flag) returns the worker to Idle after pushing the
stored content; a transport-level failure leaves it in Retrying. -/
theorem c5_retry_transport_outcome (ipv6 : Bool) (st : WorkerState)
    (v : Snapshot) (hretry : st.to_change = true) :
    (∀ r : Response,
      workerStep ipv6 st v (.ok r) = ({ st with to_change := false }, [st.update])) ∧
    (∀ e : ReqwestError,
      workerStep ipv6 st v (.error e) = (st, [st.update])) := by
  constructor
  · intro r; simp [workerStep, hretry]
  · intro e; simp [workerStep, hretry]

/-- Witness for C5 at a concrete input (application flag false). -/
theorem c5_retry_transport_outcome_witness :
    workerStep false
        { to_change := true, update := { entry := entryA, content := "1.2.3.4" } }
        { v4 := none, v6 := none }
        (.ok { success := false, errors := [{ code := 9, message := "denied" }] }) =
      ({ to_change := false, update := { entry := entryA, content := "1.2.3.4" } }, [{ entry := entryA, content := "1.2.3.4" }]) :=
  (c5_retry_transport_outcome false
    { to_change := true, update := { entry := entryA, content := "1.2.3.4" } }
    { v4 := none, v6 := none } rfl).1
    { success := false, errors := [{ code := 9, message := "denied" }] }

/-- C9: in Idle, a change-triggered push that completes at transport level
with `success = false` leaves `pendingRetry` false (worker stays Idle, new
content already stored), while a transport-level failure sets it true. -/
theorem c9_app_failure_no_retry (ipv6 : Bool) (st : WorkerState)
    (v : Snapshot) (addr : String)
    (hidle : st.to_change = false) (haddr : familyAddr ipv6 v = some addr)
    (hne : addr ≠ st.update.content) :
    (∀ es : List CloudFlareError,
      workerStep ipv6 st v (.ok { success := false, errors := es }) =
        ({ to_change := false, update := { st.update with content := addr } },
         [{ st.update with content := addr }])) ∧
    (∀ e : ReqwestError,
      (workerStep ipv6 st v (.error e)).1.to_change = true) := by
  constructor
  · intro es; simp [workerStep, hidle, haddr, hne]
  · intro e; simp [workerStep, hidle, haddr, hne]

/-- Witness for C9 at a concrete input. -/
theorem c9_app_failure_no_retry_witness :
    workerStep false (initState entryA)
        { v4 := some "203.0.113.9", v6 := none }
        (.ok { success := false, errors := [{ code := 9, message := "denied" }] }) =
      ({ to_change := false, update := { entry := entryA, content := "203.0.113.9" } },
       [{ entry := entryA, content := "203.0.113.9" }]) :=
  (c9_app_failure_no_retry false (initState entryA)
    { v4 := some "203.0.113.9", v6 := none } "203.0.113.9"
    rfl rfl (by decide)).1 [{ code := 9, message := "denied" }]

/-- C1 counterexample: a worker in Retrying delivered a snapshot with the
relevant family absent still issues a provider call and changes state
(here: transport success flips `to_change` to false), contradicting the
claim that an absent family leaves Retrying workers unchanged with no
call. -/
theorem c1_counterexample :
    (workerStep false
        { to_change := true, update := { entry := entryA, content := "1.2.3.4" } }
        { v4 := none, v6 := none }
        (.ok { success := true, errors := [] })).2 =
      [{ entry := entryA, content := "1.2.3.4" }] ∧
    (workerStep false
        { to_change := true, update := { entry := entryA, content := "1.2.3.4" } }
        { v4 := none, v6 := none }
        (.ok { success := true, errors := [] })).1.to_change = false ∧
    ¬ ((workerStep false
        { to_change := true, update := { entry := entryA, content := "1.2.3.4" } }
        { v4 := none, v6 := none }
        (.ok { success := true, errors := [] })).2 = [] ∧
      (workerStep false
        { to_change := true, update := { entry := entryA, content := "1.2.3.4" } }
        { v4 := none, v6 := none }
        (.ok { success := true, errors := [] })).1 =
        { to_change := true, update := { entry := entryA, content := "1.2.3.4" } }) := by
  refine ⟨rfl, rfl, ?_⟩
  rintro ⟨h, -⟩
  exact List.cons_ne_nil _ _ h

/-- C1 (amended): in Idle an absent relevant family leaves the state
unchanged and issues no provider call; in Retrying the snapshot's
addresses are never consulted — a retry push carrying the stored update is
issued regardless of which families the snapshot contains. -/
theorem c1_amended_absent_family (ipv6 : Bool) (st : WorkerState)
    (v : Snapshot) (resp : Except ReqwestError Response) :
    (st.to_change = false → familyAddr ipv6 v = none →
      workerStep ipv6 st v resp = (st, [])) ∧
    (st.to_change = true →
      (workerStep ipv6 st v resp).2 = [st.update]) := by
  constructor
  · intro hidle habs; simp [workerStep, hidle, habs]
  · intro hretry; cases resp <;> simp [workerStep, hretry]

/-- Witness for the amended C1 at concrete inputs. -/
theorem c1_amended_absent_family_witness :
    workerStep false (initState entryA) { v4 := none, v6 := some "::1" }
        (.ok { success := true, errors := [] }) = (initState entryA, []) :=
  (c1_amended_absent_family false (initState entryA)
    { v4 := none, v6 := some "::1" }
    (.ok { success := true, errors := [] })).1 rfl rfl

/-- C4: an Idle worker whose change-triggered push fails at transport
level enters Retrying with the new content stored; the push issued on the
next delivered snapshot — whatever addresses that snapshot holds — carries
exactly that stored content, not one re-derived from the newer snapshot. -/
theorem c4_retry_resends_same_content (ipv6 : Bool) (st : WorkerState)
    (v1 : Snapshot) (addr : String) (e : ReqwestError)
    (v2 : Snapshot) (resp2 : Except ReqwestError Response)
    (hidle : st.to_change = false) (haddr : familyAddr ipv6 v1 = some addr)
    (hne : addr ≠ st.update.content) :
    (workerStep ipv6 st v1 (.error e)).1 =
      { to_change := true, update := { st.update with content := addr } } ∧
    (workerStep ipv6 (workerStep ipv6 st v1 (.error e)).1 v2 resp2).2 =
      [{ st.update with content := addr }] := by
  have h1 : (workerStep ipv6 st v1 (.error e)).1 =
      { to_change := true, update := { st.update with content := addr } } := by
    simp [workerStep, hidle, haddr, hne]
  refine ⟨h1, ?_⟩
  rw [h1]
  cases resp2 <;> simp [workerStep]

/-- Witness for C4 at a concrete input: the second snapshot carries a
different address, yet the retry push resends the failed content. -/
theorem c4_retry_resends_same_content_witness :
    (workerStep false (initState entryA)
        { v4 := some "203.0.113.9", v6 := none }
        (.error { message := "timeout" })).1 =
      { to_change := true, update := { entry := entryA, content := "203.0.113.9" } } ∧
    (workerStep false
        (workerStep false (initState entryA)
          { v4 := some "203.0.113.9", v6 := none }
          (.error { message := "timeout" })).1
        { v4 := some "198.51.100.7", v6 := none }
        (.ok { success := true, errors := [] })).2 =
      [{ entry := entryA, content := "203.0.113.9" }] :=
  c4_retry_resends_same_content false (initState entryA)
    { v4 := some "203.0.113.9", v6 := none } "203.0.113.9"
    { message := "timeout" }
    { v4 := some "198.51.100.7", v6 := none }
    (.ok { success := true, errors := [] })
    rfl rfl (by decide)

/-! ### Startup record-identifier resolution (src/main.rs lines 49-160) -/

/-- The record-kind restriction of src/main.rs line 53:
`v.record_type == "A" || v.record_type == "AAAA"`. -/
def isAddrKind (r : DnsRecord) : Bool :=
  r.record_type == "A" || r.record_type == "AAAA"

/-- Insertion into an association-list model of `HashMap`: any previous
binding of the key is removed and the new binding appended. -/
def hmInsert (m : List (String × String)) (k v : String) :
    List (String × String) :=
  m.filter (fun q => !(q.1 == k)) ++ [(k, v)]

/-- `HashMap::from_iter`: successive inserts, so a later pair with the
same key overwrites an earlier one. -/
def hmFromIter (l : List (String × String)) : List (String × String) :=
  l.foldl (fun m p => hmInsert m p.1 p.2) []

/-- `HashMap::get` on the association-list model (keys are unique by
construction, so first match suffices). -/
def hmGet : List (String × String) → String → Option String
  | [], _ => none
  | p :: rest, k => if p.1 = k then some p.2 else hmGet rest k

/-- The name→identifier map built at src/main.rs line 53 from a zone's
listed records. -/
def recordMap (records : List DnsRecord) : List (String × String) :=
  hmFromIter ((records.filter isAddrKind).map (fun r => (r.name, r.id)))

/-- Modelled from the spec: the lookup the spec describes in its own
words — scan the (already restricted) name/id pairs with the last
occurrence of an exactly matching name winning.  Used only to compare
against the map the source builds. -/
def lastWins : List (String × String) → String → Option String
  | [], _ => none
  | p :: rest, k =>
    match lastWins rest k with
    | some v => some v
    | none => if p.1 = k then some p.2 else none

/-- The per-entry loop of src/main.rs lines 65-74: look each configured
entry up in the map; on a miss, `continue` (skip, spawn nothing); on a
hit, spawn a worker for the entry with the found record identifier. -/
def zoneEntryWorkers (m : List (String × String)) :
    List Entry → List (Entry × String)
  | [] => []
  | e :: rest =>
    match hmGet m e.name with
    | none => zoneEntryWorkers m rest
    | some id => (e, id) :: zoneEntryWorkers m rest

/-- Outcome of one zone's `get_dns_records` call, as consumed by the zone
loop (transport error, or a decoded response). -/
inductive ZoneQueryResult where
  | transportErr (e : ReqwestError)
  | response (v : ExtendedResponse (List DnsRecord))
deriving DecidableEq, Repr

/-- The zone loop of src/main.rs lines 49-160, with each zone paired with
the outcome its record-listing query receives.  Returns the spawned
workers as (zone id, entry, record id) triples.  A transport failure hits
`break` (line 61): the loop ends, so the suffix contributes nothing.  An
application-level failure (`success == false`) hits `continue`
(line 56). -/
def processZones : List (DomainInfo × ZoneQueryResult) →
    List (String × Entry × String)
  | [] => []
  | (d, q) :: rest =>
    match q with
    | .transportErr _ => []
    | .response v =>
      if v.response.success then
        ((zoneEntryWorkers (recordMap v.result) d.entries).map
          (fun p => (d.zone_id, p.1, p.2))) ++ processZones rest
      else
        processZones rest

/-! ### Lemmas about the association-list map -/

/-- Lookup after insert: the inserted key is found with the new value, any
other key falls through to the previous map. -/
theorem hmGet_hmInsert (m : List (String × String)) (k v k2 : String) :
    hmGet (hmInsert m k v) k2 = if k = k2 then some v else hmGet m k2 := by
  induction m with
  | nil =>
    by_cases h : k = k2 <;> simp [hmInsert, hmGet, h]
  | cons p rest ih =>
    by_cases hp : p.1 = k
    · have : hmInsert (p :: rest) k v = hmInsert rest k v := by
        simp [hmInsert, hp]
      rw [this, ih]
      by_cases h : k = k2
      · simp [h]
      · have hp2 : ¬ p.1 = k2 := by rw [hp]; exact h
        simp [h, hmGet, hp2]
    · have : hmInsert (p :: rest) k v = p :: hmInsert rest k v := by
        simp [hmInsert, hp]
      rw [this]
      by_cases h2 : p.1 = k2
      · have hk : ¬ k = k2 := fun hk => hp (hk ▸ h2)
        simp [hmGet, h2, hk]
      · simp [hmGet, h2, ih]

/-- Folding inserts over a map: the result looks up as "last write in the
list wins", falling back to the starting map. -/
theorem hmGet_foldl (l : List (String × String)) :
    ∀ (m : List (String × String)) (k : String),
      hmGet (l.foldl (fun m p => hmInsert m p.1 p.2) m) k =
        match lastWins l k with
        | some v => some v
        | none => hmGet m k := by
  induction l with
  | nil => intro m k; simp [lastWins]
  | cons p rest ih =>
    intro m k
    rw [List.foldl_cons, ih, lastWins]
    rcases hrest : lastWins rest k with _ | v
    · rw [hmGet_hmInsert]
      by_cases h : p.1 = k <;> simp [h]
    · rfl

/-- C8: the name→identifier map restricts the zone's records to kinds `A`
and `AAAA` and resolves a name to the identifier of the last such record
bearing it (last write wins); the per-entry loop spawns a worker exactly
for entries whose name has a match, a missing entry being skipped without
affecting the entries after it. -/
theorem c8_resolution (records : List DnsRecord) (name : String)
    (m : List (String × String)) (e : Entry) (rest : List Entry) :
    (hmGet (recordMap records) name =
      lastWins ((records.filter isAddrKind).map (fun r => (r.name, r.id))) name) ∧
    (hmGet m e.name = none →
      zoneEntryWorkers m (e :: rest) = zoneEntryWorkers m rest) ∧
    (∀ id, hmGet m e.name = some id →
      zoneEntryWorkers m (e :: rest) = (e, id) :: zoneEntryWorkers m rest) := by
  refine ⟨?_, ?_, ?_⟩
  · rw [recordMap, hmFromIter, hmGet_foldl]
    rcases h : lastWins ((records.filter isAddrKind).map (fun r => (r.name, r.id))) name
      with _ | v <;> simp [h, hmGet]
  · intro h; simp [zoneEntryWorkers, h]
  · intro id h; simp [zoneEntryWorkers, h]

/-- Witness for C8: the spec's own example.  Provider records
a.example.com→1 (A) and b.example.com→2 (AAAA); configured entries
a.example.com and c.example.com; exactly one worker is spawned
(a.example.com with identifier 1), c.example.com is skipped. -/
theorem c8_resolution_witness :
    hmGet [("a.example.com", "1"), ("b.example.com", "2")] "c.example.com" = none ∧
    zoneEntryWorkers [("a.example.com", "1"), ("b.example.com", "2")]
        ({ entryA with name := "c.example.com" } :: []) =
      zoneEntryWorkers [("a.example.com", "1"), ("b.example.com", "2")] [] :=
  ⟨by decide,
   (c8_resolution [] "" [("a.example.com", "1"), ("b.example.com", "2")]
     { entryA with name := "c.example.com" } []).2.1 (by decide)⟩

/-- A provider record matching `entryA` by name, used by concrete
inputs. -/
def recA : DnsRecord :=
  { content := "198.51.100.1", id := "1", name := "home.example.com",
    record_type := "A" }

/-- A successful record-listing outcome carrying `recA`. -/
def okQuery : ZoneQueryResult :=
  .response { response := { success := true, errors := [] }, result := [recA] }

/-- C2 counterexample: three configured zones; the second zone's listing
query fails at transport level.  The first zone keeps its worker, but —
contrary to the claim — the third zone, although it would spawn a worker
when processed (second conjunct), spawns none: the failure aborts the
whole loop, not just the failing zone. -/
theorem c2_counterexample :
    processZones
        [({ zone_id := "z1", api_key := "k1", entries := [entryA] }, okQuery),
         ({ zone_id := "z2", api_key := "k2", entries := [entryA] },
          .transportErr { message := "timeout" }),
         ({ zone_id := "z3", api_key := "k3", entries := [entryA] }, okQuery)] =
      [("z1", entryA, "1")] ∧
    processZones
        [({ zone_id := "z3", api_key := "k3", entries := [entryA] }, okQuery)] =
      [("z3", entryA, "1")] ∧
    ("z3", entryA, "1") ∉
      processZones
        [({ zone_id := "z1", api_key := "k1", entries := [entryA] }, okQuery),
         ({ zone_id := "z2", api_key := "k2", entries := [entryA] },
          .transportErr { message := "timeout" }),
         ({ zone_id := "z3", api_key := "k3", entries := [entryA] }, okQuery)] := by
  refine ⟨rfl, rfl, ?_⟩
  decide

/-- C2 (amended): a transport failure of a zone's record-listing query
ends the whole resolution loop (`break`): zones processed before it keep
their workers and the failing zone and every zone after it spawn none;
an application-level failure (`success == false`), by contrast, skips only
that zone. -/
theorem c2_amended_transport_breaks :
    (∀ (pre rest : List (DomainInfo × ZoneQueryResult)) (d : DomainInfo)
        (e : ReqwestError),
      processZones (pre ++ (d, .transportErr e) :: rest) = processZones pre) ∧
    (∀ (d : DomainInfo) (v : ExtendedResponse (List DnsRecord))
        (rest : List (DomainInfo × ZoneQueryResult)),
      v.response.success = false →
        processZones ((d, .response v) :: rest) = processZones rest) := by
  constructor
  · intro pre rest d e
    induction pre with
    | nil => rfl
    | cons p pres ih =>
      obtain ⟨d0, q0⟩ := p
      cases q0 with
      | transportErr e0 => rfl
      | response v0 =>
        have hL : processZones (((d0, ZoneQueryResult.response v0) :: pres) ++
            (d, ZoneQueryResult.transportErr e) :: rest) =
            if v0.response.success then
              ((zoneEntryWorkers (recordMap v0.result) d0.entries).map
                (fun p => (d0.zone_id, p.1, p.2))) ++
                processZones (pres ++ (d, ZoneQueryResult.transportErr e) :: rest)
            else processZones (pres ++ (d, ZoneQueryResult.transportErr e) :: rest) := rfl
        have hR : processZones ((d0, ZoneQueryResult.response v0) :: pres) =
            if v0.response.success then
              ((zoneEntryWorkers (recordMap v0.result) d0.entries).map
                (fun p => (d0.zone_id, p.1, p.2))) ++ processZones pres
            else processZones pres := rfl
        rw [hL, hR, ih]
  · intro d v rest h
    simp [processZones, h]

/-- Witness for the amended C2 at a concrete input (the counterexample's
configuration): the run stops exactly at the prefix before the failing
zone. -/
theorem c2_amended_transport_breaks_witness :
    processZones
        [({ zone_id := "z1", api_key := "k1", entries := [entryA] }, okQuery),
         ({ zone_id := "z2", api_key := "k2", entries := [entryA] },
          .transportErr { message := "timeout" }),
         ({ zone_id := "z3", api_key := "k3", entries := [entryA] }, okQuery)] =
      processZones
        [({ zone_id := "z1", api_key := "k1", entries := [entryA] }, okQuery)] :=
  c2_amended_transport_breaks.1
    [({ zone_id := "z1", api_key := "k1", entries := [entryA] }, okQuery)]
    [({ zone_id := "z3", api_key := "k3", entries := [entryA] }, okQuery)]
    { zone_id := "z2", api_key := "k2", entries := [entryA] }
    { message := "timeout" }

/-! ### DNS provider client adapter (src/main.rs lines 185-202) -/

/-- `do_update` (src/main.rs lines 185-193), with the HTTP exchange made
explicit: the argument is either a transport error from `send()` or the
received body's decoding (`v.json()`), `none` when the body does not
decode as a `Response`.  The code unwraps the decode, so a non-decoding
body panics: modelled as an outer `none` (no value is returned at all). -/
def do_update (outcome : Except ReqwestError (Option Response)) :
    Option (Except ReqwestError Response) :=
  match outcome with
  | .error e => some (.error e)
  | .ok none => none
  | .ok (some r) => some (.ok r)

/-- `get_dns_records` (src/main.rs lines 195-202), modelled the same
way. -/
def get_dns_records
    (outcome : Except ReqwestError (Option (ExtendedResponse (List DnsRecord)))) :
    Option (Except ReqwestError (ExtendedResponse (List DnsRecord))) :=
  match outcome with
  | .error e => some (.error e)
  | .ok none => none
  | .ok (some r) => some (.ok r)

/-- C10: when a response arrives at transport level, both adapter
functions return `body.map Except.ok` — so a body that fails to decode
(`none`) yields no result at all (the unchecked `unwrap` panics) rather
than a transport-failure `Except.error`; an `Except.error` result arises
only from a transport failure of `send()` itself. -/
theorem c10_decode_unwrap_panics :
    (∀ b : Option Response, do_update (.ok b) = b.map Except.ok) ∧
    (do_update (.ok none) = none) ∧
    (∀ b : Option (ExtendedResponse (List DnsRecord)),
      get_dns_records (.ok b) = b.map Except.ok) ∧
    (get_dns_records (.ok none) = none) ∧
    (∀ e : ReqwestError, do_update (.error e) = some (.error e) ∧
      get_dns_records (.error e) = some (.error e)) := by
  refine ⟨?_, rfl, ?_, rfl, ?_⟩
  · intro b; cases b <;> rfl
  · intro b; cases b <;> rfl
  · intro e; exact ⟨rfl, rfl⟩

end CloudflareDdns
